import Mathlib

/-!
Verification of the client-side query cache and fetch/pagination orchestrator
of the FlourishTalents application.

The `QueryCache` class (src/PERFORMANCE_SUMMARY.md, lines 430-495) is embedded
below as a pure state-passing model: the JavaScript `Map` becomes an
association list with unique keys, `Date.now()` becomes an explicit `now : Nat`
argument, and the `setTimeout(() => this.cache.delete(key), ttl)` call in `set`
becomes a pending-timer list together with an explicit event-loop step
`fireTimers` that runs every deletion callback whose scheduled time has been
reached by the simulated clock.
-/

/-- JavaScript `Map.get`: the value stored at `k`, if any. -/
def mapGet (m : List (String × α)) (k : String) : Option α :=
  (m.find? (fun p => p.1 == k)).map (fun p => p.2)

/-- JavaScript `Map.delete`: remove the entry at `k` (no-op when absent). -/
def mapDelete (m : List (String × α)) (k : String) : List (String × α) :=
  m.filter (fun p => !(p.1 == k))

/-- JavaScript `Map.set`: overwrite any existing entry at `k`. -/
def mapSet (m : List (String × α)) (k : String) (v : α) : List (String × α) :=
  (k, v) :: mapDelete m k

/-- `interface CacheEntry<T> { data: T; timestamp: number; error: Error | null }`.
`data` is `Option V` so that the `data: null` written by `setError` is
representable; errors are modelled as strings. -/
structure CacheEntry (V : Type) where
  data : Option V
  timestamp : Nat
  error : Option String
deriving DecidableEq

/-- The `QueryCache` class state: the private `Map`, the `defaultTTL` fixed at
construction (default `5 * 60 * 1000`), and the deletion timers queued by
`setTimeout` in `set` (key, absolute fire time). -/
structure QueryCache (V : Type) where
  cache : List (String × CacheEntry V)
  defaultTTL : Nat
  timers : List (String × Nat)
deriving DecidableEq

/-- `set(key, data, ttl = this.defaultTTL)`: store `data` with the current
timestamp and `error: null`, and schedule `this.cache.delete(key)` after
`ttl` milliseconds. The timer is never cancelled. -/
def QueryCache.set (c : QueryCache V) (now : Nat) (key : String) (data : V)
    (ttl : Nat) : QueryCache V :=
  { c with
    cache := mapSet c.cache key { data := some data, timestamp := now, error := none }
    timers := c.timers ++ [(key, now + ttl)] }

/-- `get(key)`: absent entry gives `null`; an entry with
`age > this.defaultTTL` is deleted and `null` is returned; otherwise
`entry.data` is returned (which is itself `null` for error entries).
The second component is the cache state after the call. -/
def QueryCache.get (c : QueryCache V) (now : Nat) (key : String) :
    Option V × QueryCache V :=
  match mapGet c.cache key with
  | none => (none, c)
  | some entry =>
    let age := now - entry.timestamp
    if age > c.defaultTTL then
      (none, { c with cache := mapDelete c.cache key })
    else
      (entry.data, c)

/-- `has(key)`: raw `Map.has`, no staleness check. -/
def QueryCache.has (c : QueryCache V) (key : String) : Bool :=
  (mapGet c.cache key).isSome

/-- `clear()`: remove all entries. -/
def QueryCache.clear (c : QueryCache V) : QueryCache V :=
  { c with cache := [] }

/-- `delete(key)`: remove a single entry unconditionally. -/
def QueryCache.delete (c : QueryCache V) (key : String) : QueryCache V :=
  { c with cache := mapDelete c.cache key }

/-- `setError(key, error)`: store a sentinel entry with `data: null` and the
error; unlike `set`, no deletion timer is scheduled. -/
def QueryCache.setError (c : QueryCache V) (now : Nat) (key : String)
    (err : String) : QueryCache V :=
  { c with cache := mapSet c.cache key { data := none, timestamp := now, error := some err } }

/-- `getSize()`: `this.cache.size`. -/
def QueryCache.getSize (c : QueryCache V) : Nat :=
  c.cache.length

/-- Event-loop step: once the simulated clock has reached `now`, every pending
`setTimeout` callback whose fire time is `≤ now` runs, deleting its key; the
fired timers are discarded. -/
def fireTimers (c : QueryCache V) (now : Nat) : QueryCache V :=
  { c with
    cache := c.cache.filter
      (fun p => !(c.timers.any (fun t => t.1 == p.1 && decide (t.2 ≤ now))))
    timers := c.timers.filter (fun t => !(decide (t.2 ≤ now))) }

/-- Observation after a simulated clock advance to `now`: due timers fire,
then `get` runs. -/
def readAt (c : QueryCache V) (now : Nat) (key : String) : Option V :=
  ((fireTimers c now).get now key).1

theorem mapGet_mapSet_self (m : List (String × α)) (k : String) (v : α) :
    mapGet (mapSet m k v) k = some v := by
  unfold mapGet mapSet
  rw [List.find?_cons_of_pos _ (by simp)]
  rfl

theorem mapGet_eq_none_of_mapDelete (m : List (String × α)) (k : String)
    (h : mapGet m k = none) : mapDelete m k = m := by
  unfold mapGet at h
  unfold mapDelete
  rw [List.filter_eq_self]
  intro p hp
  rcases Option.map_eq_none'.mp h with hfind
  have := List.find?_eq_none.mp hfind p hp
  simpa using this

theorem get_fst_of_fresh (c : QueryCache V) (now : Nat) (k : String)
    (e : CacheEntry V) (he : mapGet c.cache k = some e)
    (hfresh : ¬ now - e.timestamp > c.defaultTTL) :
    (c.get now k).1 = e.data := by
  unfold QueryCache.get
  rw [he]
  simp [hfresh]

theorem get_fst_of_stale (c : QueryCache V) (now : Nat) (k : String)
    (e : CacheEntry V) (he : mapGet c.cache k = some e)
    (hstale : now - e.timestamp > c.defaultTTL) :
    (c.get now k).1 = none := by
  unfold QueryCache.get
  rw [he]
  simp [hstale]

/-- C3: for every key, value and TTL, `set(k, v, t)` immediately followed by
`get(k)` (no clock advance) returns `v`: the fresh entry has age `0`, which is
never greater than the default TTL. -/
theorem C3_set_then_get (c : QueryCache V) (now : Nat) (k : String) (v : V)
    (t : Nat) :
    ((c.set now k v t).get now k).1 = some v := by
  have he : mapGet (c.set now k v t).cache k =
      some { data := some v, timestamp := now, error := none } :=
    mapGet_mapSet_self _ _ _
  rw [get_fst_of_fresh _ _ _ _ he (by simp)]

/-- C1 counterexample: an entry stored with a 600000ms custom TTL into a cache
whose default TTL is 300000 is still present at age exactly 300000 (its
deletion timer fires only at 600000), and `get` returns the stored value even
though the age is not strictly less than the default TTL. -/
theorem C1_counterexample :
    readAt ((QueryCache.mk [] 300000 [] : QueryCache Nat).set 0 "k" 42 600000)
      300000 "k" = some 42 ∧
    ¬ (300000 - 0 < 300000) := by
  decide

/-- C1 (amended): for a stored data entry, `get` returns the stored value iff
the entry's age is at most (not strictly less than) the default TTL, since the
staleness test is `age > defaultTTL`; the spec's concrete example still holds:
with default TTL 300000, an entry stored by `set` with the default TTL is
removed by its scheduled deletion timer exactly at age 300000, so a read at
age 299999 returns the value and a read at age 300000 returns absent. -/
theorem C1_get_iff_age_le_ttl (c : QueryCache V) (now : Nat) (k : String)
    (e : CacheEntry V) (v : V)
    (he : mapGet c.cache k = some e) (hv : e.data = some v) :
    ((c.get now k).1 = some v ↔ now - e.timestamp ≤ c.defaultTTL) ∧
    readAt ((QueryCache.mk [] 300000 [] : QueryCache Nat).set 0 "p" 7 300000)
      299999 "p" = some 7 ∧
    readAt ((QueryCache.mk [] 300000 [] : QueryCache Nat).set 0 "p" 7 300000)
      300000 "p" = none := by
  refine ⟨⟨?_, ?_⟩, by decide, by decide⟩
  · intro hg
    by_contra hage
    rw [get_fst_of_stale c now k e he (Nat.lt_of_not_le hage)] at hg
    exact Option.noConfusion hg
  · intro hle
    rw [get_fst_of_fresh c now k e he (Nat.not_lt.mpr hle)]
    exact hv

theorem C1_witness :
    ((((QueryCache.mk [] 300000 [] : QueryCache Nat).set 0 "w" 9 300000).get
        100 "w").1 = some 9 ↔ 100 - (0 : Nat) ≤ 300000) ∧
    readAt ((QueryCache.mk [] 300000 [] : QueryCache Nat).set 0 "p" 7 300000)
      299999 "p" = some 7 ∧
    readAt ((QueryCache.mk [] 300000 [] : QueryCache Nat).set 0 "p" 7 300000)
      300000 "p" = none :=
  C1_get_iff_age_le_ttl _ 100 "w" ⟨some 9, 0, none⟩ 9 (by decide) rfl

/-- C2 counterexample: with default TTL 300000, a simulated clock advance of
exactly 300000 (which is ≥ the default TTL) after a `set` with custom TTL
600000 leaves the entry in place, and `get` returns the stored value rather
than absent. -/
theorem C2_counterexample :
    readAt ((QueryCache.mk [] 300000 [] : QueryCache Nat).set 0 "k" 42 600000)
      300000 "k" ≠ none := by
  decide

/-- C2 (amended): after a clock advance strictly greater than the default TTL,
`get` returns absent regardless of the (possibly longer) custom TTL `t` the
entry was stored with: the staleness test compares the age only against the
instance default TTL. -/
theorem C2_stale_after_default_ttl (c : QueryCache V) (s now : Nat)
    (k : String) (v : V) (t : Nat) (h : c.defaultTTL < now - s) :
    ((c.set s k v t).get now k).1 = none :=
  get_fst_of_stale _ _ _ _ (mapGet_mapSet_self _ _ _) h

theorem C2_witness :
    (((QueryCache.mk [] 300000 [] : QueryCache Nat).set 0 "k" 5 600000).get
      300001 "k").1 = none :=
  C2_stale_after_default_ttl _ 0 300001 "k" 5 600000 (by decide)

theorem get_snd_of_fresh (c : QueryCache V) (now : Nat) (k : String)
    (e : CacheEntry V) (he : mapGet c.cache k = some e)
    (hfresh : ¬ now - e.timestamp > c.defaultTTL) :
    (c.get now k).2 = c := by
  unfold QueryCache.get
  rw [he]
  simp [hfresh]

theorem get_fst_of_absent (c : QueryCache V) (now : Nat) (k : String)
    (he : mapGet c.cache k = none) : (c.get now k).1 = none := by
  unfold QueryCache.get
  rw [he]

theorem mapGet_mapDelete_self (m : List (String × α)) (k : String) :
    mapGet (mapDelete m k) k = none := by
  unfold mapGet mapDelete
  rw [Option.map_eq_none', List.find?_eq_none]
  intro x hx
  have hmem := (List.mem_filter.mp hx).2
  simp only [Bool.not_eq_true'] at hmem
  simp [hmem]

/-- C4: after `setError(k, err)`, a `get(k)` within the default-TTL window
returns absent for data (the sentinel's `data` is `null`), leaves the cache
state unchanged, and the sentinel entry carrying the error is still present
in the store. -/
theorem C4_setError_then_get (c : QueryCache V) (s now : Nat) (k : String)
    (err : String) (h : now - s ≤ c.defaultTTL) :
    ((c.setError s k err).get now k).1 = none ∧
    ((c.setError s k err).get now k).2 = c.setError s k err ∧
    (c.setError s k err).has k = true ∧
    mapGet (c.setError s k err).cache k =
      some { data := none, timestamp := s, error := some err } := by
  have he : mapGet (c.setError s k err).cache k =
      some { data := none, timestamp := s, error := some err } :=
    mapGet_mapSet_self _ _ _
  have hfresh : ¬ now - ({ data := none, timestamp := s, error := some err } :
      CacheEntry V).timestamp > (c.setError s k err).defaultTTL :=
    Nat.not_lt.mpr h
  refine ⟨?_, get_snd_of_fresh _ _ _ _ he hfresh, ?_, he⟩
  · rw [get_fst_of_fresh _ _ _ _ he hfresh]
  · simp [QueryCache.has, he]

theorem C4_witness :
    (((QueryCache.mk [] 300000 [] : QueryCache Nat).setError 0 "k" "boom").get
      100 "k").1 = none ∧
    (((QueryCache.mk [] 300000 [] : QueryCache Nat).setError 0 "k" "boom").get
      100 "k").2 = (QueryCache.mk [] 300000 [] : QueryCache Nat).setError 0 "k" "boom" ∧
    ((QueryCache.mk [] 300000 [] : QueryCache Nat).setError 0 "k" "boom").has
      "k" = true ∧
    mapGet ((QueryCache.mk [] 300000 [] : QueryCache Nat).setError 0 "k"
      "boom").cache "k" =
      some { data := none, timestamp := 0, error := some "boom" } :=
  C4_setError_then_get (QueryCache.mk [] 300000 [] : QueryCache Nat) 0 100 "k"
    "boom" (by decide)

/-- C5: `has` checks only raw presence: for an entry whose age exceeds the
default TTL but that has not yet been physically removed, `has` returns true
while `get` returns absent. -/
theorem C5_has_ignores_staleness (c : QueryCache V) (now : Nat) (k : String)
    (e : CacheEntry V) (he : mapGet c.cache k = some e)
    (hstale : now - e.timestamp > c.defaultTTL) :
    c.has k = true ∧ (c.get now k).1 = none :=
  ⟨by simp [QueryCache.has, he], get_fst_of_stale _ _ _ _ he hstale⟩

theorem C5_witness :
    (fireTimers ((QueryCache.mk [] 300000 [] : QueryCache Nat).set 0 "k" 42
      600000) 400000).has "k" = true ∧
    ((fireTimers ((QueryCache.mk [] 300000 [] : QueryCache Nat).set 0 "k" 42
      600000) 400000).get 400000 "k").1 = none :=
  C5_has_ignores_staleness _ 400000 "k" ⟨some 42, 0, none⟩ (by decide)
    (by decide)

/-- C6: after `delete(k)`, `get(k)` returns absent and `has(k)` is false;
when no entry for `k` exists, `delete` leaves the cache state unchanged. -/
theorem C6_delete_removes (c : QueryCache V) (now : Nat) (k : String) :
    ((c.delete k).get now k).1 = none ∧
    (c.delete k).has k = false ∧
    (mapGet c.cache k = none → c.delete k = c) := by
  have he : mapGet (c.delete k).cache k = none := mapGet_mapDelete_self _ _
  refine ⟨get_fst_of_absent _ _ _ he, ?_, ?_⟩
  · simp [QueryCache.has, he]
  · intro habs
    unfold QueryCache.delete
    rw [mapGet_eq_none_of_mapDelete _ _ habs]

theorem C6_witness :
    ((((QueryCache.mk [] 300000 [] : QueryCache Nat).set 0 "k" 7
      300000).delete "k").get 0 "k").1 = none ∧
    (((QueryCache.mk [] 300000 [] : QueryCache Nat).set 0 "k" 7
      300000).delete "k").has "k" = false ∧
    (QueryCache.mk [] 300000 [] : QueryCache Nat).delete "q" =
      (QueryCache.mk [] 300000 [] : QueryCache Nat) := by
  have h1 := C6_delete_removes ((QueryCache.mk [] 300000 [] : QueryCache Nat).set
    0 "k" 7 300000) 0 "k"
  have h2 := C6_delete_removes (QueryCache.mk [] 300000 [] : QueryCache Nat) 0 "q"
  exact ⟨h1.1, h1.2.1, h2.2.2 (by decide)⟩

theorem find?_filter_key (m : List (String × α)) (k : String)
    (pred : String × α → Bool) (hk : ∀ q : String × α, q.1 = k → pred q = true) :
    (m.filter pred).find? (fun p => p.1 == k) = m.find? (fun p => p.1 == k) := by
  induction m with
  | nil => rfl
  | cons q rest ih =>
    by_cases hq : q.1 = k
    · rw [List.filter_cons_of_pos (hk q hq),
        List.find?_cons_of_pos _ (by simp [hq]),
        List.find?_cons_of_pos _ (by simp [hq])]
    · rw [List.find?_cons_of_neg _ (by simp [hq])]
      by_cases hp : pred q = true
      · rw [List.filter_cons_of_pos hp,
          List.find?_cons_of_neg _ (by simp [hq]), ih]
      · rw [List.filter_cons_of_neg hp, ih]

theorem mapGet_fireTimers_of_no_timer (c : QueryCache V) (now : Nat)
    (k : String) (h : ∀ t ∈ c.timers, t.1 ≠ k) :
    mapGet (fireTimers c now).cache k = mapGet c.cache k := by
  unfold mapGet fireTimers
  rw [find?_filter_key]
  intro q hq
  simp only [Bool.not_eq_true', List.any_eq_false]
  intro t ht
  simp [hq, h t ht]

/-- C9: `set` always queues an uncancellable deletion timer `ttl` after the
write, and overwriting a key does not cancel the earlier timer: after
`set("k", 1)` at time 0 with TTL 1000 and `set("k", 2)` at time 500 with TTL
600000, the entry holding `2` is still readable at time 999 but is physically
removed when the first timer fires at time 1000 — far earlier than its own
expiry time 500 + 600000. -/
theorem C9_timer_not_cancelled :
    (∀ (c : QueryCache Nat) (now : Nat) (k : String) (v ttl : Nat),
      (c.set now k v ttl).timers = c.timers ++ [(k, now + ttl)]) ∧
    readAt (((QueryCache.mk [] 300000 [] : QueryCache Nat).set 0 "k" 1
      1000).set 500 "k" 2 600000) 999 "k" = some 2 ∧
    (fireTimers (((QueryCache.mk [] 300000 [] : QueryCache Nat).set 0 "k" 1
      1000).set 500 "k" 2 600000) 1000).has "k" = false ∧
    (1000 : Nat) < 500 + 600000 :=
  ⟨fun _ _ _ _ _ => rfl, by decide, by decide, by decide⟩

/-- C10 counterexample: an error entry written by `setError` can be removed by
an automatic timer after all. `set("k", 1, ttl = 1000)` at time 0 schedules a
deletion at time 1000; `setError("k", "boom")` at time 500 overwrites the
entry but leaves that timer pending, so the error entry is still present at
time 999 and gone at time 1000 when the earlier timer fires — it was never
overwritten again, deleted, cleared, or stale-evicted (its age 500 is within
the default TTL 300000). -/
theorem C10_counterexample :
    (fireTimers (((QueryCache.mk [] 300000 [] : QueryCache Nat).set 0 "k" 1
      1000).setError 500 "k" "boom") 999).has "k" = true ∧
    (fireTimers (((QueryCache.mk [] 300000 [] : QueryCache Nat).set 0 "k" 1
      1000).setError 500 "k" "boom") 1000).has "k" = false ∧
    (1000 : Nat) - 500 ≤ 300000 := by
  decide

/-- C10 (amended): `setError` itself schedules no timed removal — the timer
queue is unchanged — so its error entry can be deleted automatically only by
a timer that an earlier `set` on the same key had already scheduled; when no
pending timer mentions `k`, the entry survives every event-loop step, and
only an overwrite, an explicit `delete`/`clear`, or a stale `get` eviction
can remove it. -/
theorem C10_setError_no_timer (c : QueryCache V) (s : Nat) (k : String)
    (err : String) (h : ∀ t ∈ c.timers, t.1 ≠ k) :
    (c.setError s k err).timers = c.timers ∧
    ∀ now, (fireTimers (c.setError s k err) now).has k = true := by
  refine ⟨rfl, fun now => ?_⟩
  unfold QueryCache.has
  have h' : ∀ t ∈ (c.setError s k err).timers, t.1 ≠ k := h
  rw [mapGet_fireTimers_of_no_timer _ _ _ h']
  show (mapGet (mapSet c.cache k
    { data := none, timestamp := s, error := some err }) k).isSome = true
  rw [mapGet_mapSet_self]
  rfl

theorem C10_witness :
    ((QueryCache.mk [] 300000 [] : QueryCache Nat).setError 0 "k"
      "boom").timers = [] ∧
    (fireTimers ((QueryCache.mk [] 300000 [] : QueryCache Nat).setError 0 "k"
      "boom") 999999).has "k" = true := by
  have h := C10_setError_no_timer (QueryCache.mk [] 300000 [] : QueryCache Nat)
    0 "k" "boom" (by simp)
  exact ⟨h.1, h.2 999999⟩

/-- Modelled from the spec: the fetch/pagination orchestrator lives in
`src/pages/Media.tsx`, which is not part of the repository snapshot; the
performance reports reproduce its pagination code
(`const ITEMS_PER_PAGE = 12`). -/
def ITEMS_PER_PAGE : Nat := 12

/-- Modelled from the spec: `const startIdx = (currentPage - 1) * ITEMS_PER_PAGE`
(src/PERFORMANCE_SUMMARY.md, lines 114-121). -/
def startIdx (currentPage pageSize : Nat) : Nat :=
  (currentPage - 1) * pageSize

/-- Modelled from the spec: the remote store's `.range(lo, hi)` returns the
rows of the ordered result set with zero-based indices `lo` to `hi`
inclusive. -/
def rangeQuery (db : List α) (lo hi : Nat) : List α :=
  (db.drop lo).take (hi - lo + 1)

/-- Modelled from the spec: the orchestrator's content query,
`.range(startIdx, startIdx + ITEMS_PER_PAGE - 1)` with a page size parameter
in place of the fixed constant. -/
def contentQuery (db : List α) (currentPage pageSize : Nat) : List α :=
  rangeQuery db (startIdx currentPage pageSize)
    (startIdx currentPage pageSize + pageSize - 1)

/-- C7: for page number `p ≥ 1` and page size `n ≥ 1`, the content query uses
offset `(p-1)*n` and returns at most `n` items; with the reference page size
12, page 1 uses offset 0 and page 2 uses offset 12. -/
theorem C7_pagination (db : List α) (p n : Nat) (_hp : 1 ≤ p) (hn : 1 ≤ n) :
    startIdx p n = (p - 1) * n ∧
    (contentQuery db p n).length ≤ n ∧
    startIdx 1 ITEMS_PER_PAGE = 0 ∧
    startIdx 2 ITEMS_PER_PAGE = 12 := by
  refine ⟨rfl, ?_, rfl, rfl⟩
  unfold contentQuery rangeQuery
  have harith : startIdx p n + n - 1 - startIdx p n + 1 = n := by omega
  rw [harith]
  calc ((db.drop (startIdx p n)).take n).length
      ≤ n := by rw [List.length_take]; exact min_le_left _ _

theorem C7_witness :
    startIdx 2 12 = (2 - 1) * 12 ∧
    (contentQuery (List.range 30) 2 12).length ≤ 12 ∧
    startIdx 1 ITEMS_PER_PAGE = 0 ∧
    startIdx 2 ITEMS_PER_PAGE = 12 :=
  C7_pagination (List.range 30) 2 12 (by decide) (by decide)

/-- Modelled from the spec: the 17-field projection of a content record,
reduced to the fields the like/follow merge actually reads (`id` for the
likes membership test, `creator_name` for the follows membership test) plus a
display field. -/
structure MediaItem where
  id : String
  creator_name : String
  title : String
deriving DecidableEq

/-- A content item as delivered to the page: the record plus the derived
`isLiked` / `isFollowed` booleans. -/
structure PageItem where
  item : MediaItem
  isLiked : Bool
  isFollowed : Bool
deriving DecidableEq

/-- Modelled from the spec: `Promise.all` over the two independent interaction
queries — the combined promise resolves only when both resolve, and rejects
as soon as either rejects. -/
def promiseAll2 (a : Except String α) (b : Except String β) :
    Except String (α × β) :=
  match a, b with
  | .ok x, .ok y => .ok (x, y)
  | .error e, _ => .error e
  | .ok _, .error e => .error e

/-- Modelled from the spec: each content item gets derived `isLiked` /
`isFollowed` booleans by membership test against the two interaction sets. -/
def mergePage (items : List MediaItem) (likes follows : List String) :
    List PageItem :=
  items.map (fun it =>
    { item := it, isLiked := likes.contains it.id,
      isFollowed := follows.contains it.creator_name })

/-- Modelled from the spec: `loadPage` for an authenticated user — the content
query result is combined with the `Promise.all` of the likes query and the
follows query, and the merged page is produced only when all three succeed. -/
def loadPageAuth (content : Except String (List MediaItem))
    (likesRes followsRes : Except String (List String)) :
    Except String (List PageItem) :=
  match content with
  | .error e => .error e
  | .ok items =>
    match promiseAll2 likesRes followsRes with
    | .error e => .error e
    | .ok (likes, follows) => .ok (mergePage items likes follows)

/-- C8: the likes and follows queries are joined by `Promise.all` before a
page is produced: if either interaction query fails, the authenticated
`loadPage` fails with an error and never returns a (partially merged) page. -/
theorem C8_interaction_failure (content : Except String (List MediaItem))
    (likesRes followsRes : Except String (List String))
    (h : (∃ e, likesRes = .error e) ∨ (∃ e, followsRes = .error e)) :
    (∃ e, loadPageAuth content likesRes followsRes = .error e) ∧
    ∀ page, loadPageAuth content likesRes followsRes ≠ .ok page := by
  have hfail : ∃ e, loadPageAuth content likesRes followsRes = .error e := by
    cases content with
    | error e => exact ⟨e, rfl⟩
    | ok items =>
      rcases h with ⟨e, he⟩ | ⟨e, he⟩
      · exact ⟨e, by simp [loadPageAuth, promiseAll2, he]⟩
      · cases likesRes with
        | error e2 => exact ⟨e2, by simp [loadPageAuth, promiseAll2]⟩
        | ok likes => exact ⟨e, by simp [loadPageAuth, promiseAll2, he]⟩
  refine ⟨hfail, fun page hpage => ?_⟩
  rcases hfail with ⟨e, he⟩
  rw [he] at hpage
  exact Except.noConfusion hpage

theorem C8_witness :
    (∃ e, loadPageAuth
      (.ok [{ id := "m1", creator_name := "c1", title := "t1" }])
      (.error "network failure") (.ok ["c1"]) = .error e) ∧
    ∀ page, loadPageAuth
      (.ok [{ id := "m1", creator_name := "c1", title := "t1" }])
      (.error "network failure") (.ok ["c1"]) ≠ .ok page :=
  C8_interaction_failure _ _ _ (Or.inl ⟨"network failure", rfl⟩)
